import Mathlib

/-!
Shallow embedding of `src/ossl/hash.rs` (kryoptic): the PKCS#11 digest
(hash) operation state machine built on the OpenSSL EVP digest interface.

The OpenSSL engine calls (`EVP_Digest`, `EVP_DigestInit`, `EVP_DigestUpdate`,
`EVP_DigestFinal_ex`, `EVP_MD_get_size`) are foreign functions; each call
site is embedded by an oracle parameter carrying the values that the
foreign call may return (its `int` return code and, for the one-shot and
finalize calls, the byte count it writes into the output-length argument).
Every method additionally produces a ghost trace of `EngineEvent`s which
records, in program order, the engine invocations and the writes to the
two lifecycle flags, so that ordering properties of the source can be
stated and proved.
-/

/-- CK_RV value CKR_GENERAL_ERROR from the PKCS#11 interface. -/
def CKR_GENERAL_ERROR : Nat := 0x00000005

/-- CK_RV value CKR_DEVICE_ERROR from the PKCS#11 interface. -/
def CKR_DEVICE_ERROR : Nat := 0x00000030

/-- CK_RV value CKR_MECHANISM_INVALID from the PKCS#11 interface. -/
def CKR_MECHANISM_INVALID : Nat := 0x00000070

/-- CK_RV value CKR_OPERATION_NOT_INITIALIZED from the PKCS#11 interface. -/
def CKR_OPERATION_NOT_INITIALIZED : Nat := 0x00000091

/-- Modelled from the spec: the crate maps integer-conversion failures
(`TryFromIntError`, raised by the `?` on `usize::try_from` /
`c_uint::try_from`; the `From` impl lives in `error.rs`, outside `src/`)
to the LengthMismatch / GeneralFailure kind of the error taxonomy. -/
def tryFromIntError : Nat := CKR_GENERAL_ERROR

/-- The crate's `Result<T>`: `Ok` or a `CK_RV` error code. -/
abbrev CKResult (α : Type) := Except Nat α

/-- Ghost trace events: engine invocations and lifecycle-flag writes,
recorded in the order the corresponding statements execute in the source. -/
inductive EngineEvent where
  | engineInit : EngineEvent
  | engineUpdate (chunk : List Nat) : EngineEvent
  | engineOneShot (input : List Nat) : EngineEvent
  | engineFinal : EngineEvent
  | setInUse (b : Bool) : EngineEvent
  | setFinalized (b : Bool) : EngineEvent
  deriving DecidableEq, Repr

/-- The outcome of one `EVP_Digest` / `EVP_DigestFinal_ex` foreign call:
`r` is the C return value, `written` the byte count the engine stores
into its output-length out-parameter (a `c_uint`). -/
structure EvpReply where
  r : Int
  written : Nat
  deriving DecidableEq, Repr

/-- The outcomes of the foreign calls a `digest_update` may perform:
`initR` is the return value of `EVP_DigestInit` (consulted only when the
operation is not yet in use), `updR` that of `EVP_DigestUpdate`. -/
structure UpdateOracle where
  initR : Int
  updR : Int
  deriving DecidableEq, Repr

/-- `HashOperation` from `hash.rs`. The `HashState` (the `EVP_MD` handle
plus the `EVP_MD_CTX` running context) is engine-owned and opaque; the one
attribute of it the code ever reads is `EVP_MD_get_size(md)`, a C `int`,
embedded here as the field `mdSize`. -/
structure HashOperation where
  mech : Nat
  mdSize : Int
  finalized : Bool
  in_use : Bool
  deriving DecidableEq, Repr

/-- `HashOperation::new` (hash.rs lines 54-65). `mech_type_to_digest_name`
and `HashState::new` are external to this file; `algIsNull` embeds whether
the resolver returned a null name, and `state` the result of
`HashState::new` (on success, surfacing the fetched algorithm's size). -/
def HashOperation.new (mech : Nat) (algIsNull : Bool) (state : CKResult Int) :
    CKResult HashOperation :=
  if algIsNull then .error CKR_MECHANISM_INVALID
  else
    match state with
    | .error e => .error e
    | .ok size =>
        .ok { mech := mech, mdSize := size, finalized := false, in_use := false }

/-- `Digest::digest_len` (hash.rs lines 172-175): `EVP_MD_get_size`
followed by `usize::try_from`, which fails on a negative size. -/
def HashOperation.digest_len (op : HashOperation) : CKResult Nat :=
  if 0 ≤ op.mdSize then .ok op.mdSize.toNat else .error tryFromIntError

/-- `MechOperation::mechanism` for `HashOperation` (hash.rs lines 82-84). -/
def HashOperation.mechanism (op : HashOperation) : CKResult Nat :=
  .ok op.mech

/-- `MechOperation::reset` for `HashOperation` (hash.rs lines 89-93). -/
def HashOperation.reset (op : HashOperation) :
    HashOperation × CKResult Unit × List EngineEvent :=
  ({ op with finalized := false, in_use := false }, .ok (),
    [.setFinalized false, .setInUse false])

/-- `Digest::digest` (hash.rs lines 97-121): one-shot digest. Rejects when
`in_use || finalized`; checks the output length against `digest_len`;
sets `finalized = true`; converts `digest_len` to `c_uint`; dispatches
`EVP_Digest`; fails unless the call returned 1 and reported writing
exactly `digest.len()` bytes. -/
def HashOperation.digest (op : HashOperation) (data : List Nat) (outLen : Nat)
    (o : EvpReply) : HashOperation × CKResult Unit × List EngineEvent :=
  if op.in_use || op.finalized then
    (op, .error CKR_OPERATION_NOT_INITIALIZED, [])
  else
    match op.digest_len with
    | .error e => (op, .error e, [])
    | .ok dlen =>
      if outLen ≠ dlen then
        (op, .error CKR_GENERAL_ERROR, [])
      else
        match ({ op with finalized := true } : HashOperation).digest_len with
        | .error e => ({ op with finalized := true }, .error e,
            [EngineEvent.setFinalized true])
        | .ok dlen2 =>
          if dlen2 < 2 ^ 32 then
            if o.r ≠ 1 ∨ o.written ≠ outLen then
              ({ op with finalized := true }, .error CKR_GENERAL_ERROR,
                [EngineEvent.setFinalized true, .engineOneShot data])
            else
              ({ op with finalized := true }, .ok (),
                [EngineEvent.setFinalized true, .engineOneShot data])
          else
            ({ op with finalized := true }, .error tryFromIntError,
              [EngineEvent.setFinalized true])

/-- `Digest::digest_update` (hash.rs lines 123-145), with
`HashOperation::digest_init` (lines 68-78) inlined at its single call
site: rejects when `finalized`; lazily runs `EVP_DigestInit` and sets
`in_use = true` on the first call (an init failure propagates via `?`
with no flag change); then runs `EVP_DigestUpdate`, forcing
`finalized = true` when the update reports failure. -/
def HashOperation.digest_update (op : HashOperation) (data : List Nat)
    (u : UpdateOracle) : HashOperation × CKResult Unit × List EngineEvent :=
  if op.finalized then
    (op, .error CKR_OPERATION_NOT_INITIALIZED, [])
  else
    if op.in_use then
      if u.updR = 1 then
        (op, .ok (), [EngineEvent.engineUpdate data])
      else
        ({ op with finalized := true }, .error CKR_DEVICE_ERROR,
          [EngineEvent.engineUpdate data, .setFinalized true])
    else
      if u.initR ≠ 1 then
        (op, .error CKR_DEVICE_ERROR, [EngineEvent.engineInit])
      else
        if u.updR = 1 then
          ({ op with in_use := true }, .ok (),
            [EngineEvent.engineInit, .setInUse true, .engineUpdate data])
        else
          ({ op with in_use := true, finalized := true },
            .error CKR_DEVICE_ERROR,
            [EngineEvent.engineInit, .setInUse true, .engineUpdate data,
              .setFinalized true])

/-- `Digest::digest_final` (hash.rs lines 147-170): rejects when
`!in_use`, then when `finalized`; checks the output length against
`digest_len`; sets `finalized = true`; converts to `c_uint`; dispatches
`EVP_DigestFinal_ex`; fails unless the call returned 1 and reported
writing exactly `digest.len()` bytes. -/
def HashOperation.digest_final (op : HashOperation) (outLen : Nat)
    (o : EvpReply) : HashOperation × CKResult Unit × List EngineEvent :=
  if ¬ op.in_use then
    (op, .error CKR_OPERATION_NOT_INITIALIZED, [])
  else if op.finalized then
    (op, .error CKR_OPERATION_NOT_INITIALIZED, [])
  else
    match op.digest_len with
    | .error e => (op, .error e, [])
    | .ok dlen =>
      if outLen ≠ dlen then
        (op, .error CKR_GENERAL_ERROR, [])
      else
        match ({ op with finalized := true } : HashOperation).digest_len with
        | .error e => ({ op with finalized := true }, .error e,
            [EngineEvent.setFinalized true])
        | .ok dlen2 =>
          if dlen2 < 2 ^ 32 then
            if o.r ≠ 1 ∨ o.written ≠ outLen then
              ({ op with finalized := true }, .error CKR_GENERAL_ERROR,
                [EngineEvent.setFinalized true, .engineFinal])
            else
              ({ op with finalized := true }, .ok (),
                [EngineEvent.setFinalized true, .engineFinal])
          else
            ({ op with finalized := true }, .error tryFromIntError,
              [EngineEvent.setFinalized true])

/-- A concrete Idle SHA-256 operation (mechanism CKM_SHA256 = 0x250,
digest size 32) used to exercise the theorems on explicit inputs. -/
def opIdle : HashOperation := ⟨0x250, 32, false, false⟩

/-- A concrete finalized SHA-256 operation. -/
def opFin : HashOperation := ⟨0x250, 32, true, false⟩

/-- A concrete streaming (in-use, not finalized) SHA-256 operation. -/
def opBusy : HashOperation := ⟨0x250, 32, false, true⟩

/-! ## Helper lemmas -/

/-- On the accepted one-shot path (Idle state, representable size, matching
output length) `digest` sets `finalized`, leaves `in_use` alone, emits the
flag write followed by the engine dispatch, and succeeds exactly when the
engine returned 1 and reported the full buffer length written. -/
theorem digest_run (op : HashOperation) (data : List Nat) (outLen : Nat)
    (o : EvpReply) (h1 : op.in_use = false) (h2 : op.finalized = false)
    (h3 : 0 ≤ op.mdSize) (h4 : op.mdSize.toNat < 2 ^ 32)
    (h5 : outLen = op.mdSize.toNat) :
    op.digest data outLen o =
      ({ op with finalized := true },
        if o.r ≠ 1 ∨ o.written ≠ outLen then
          Except.error CKR_GENERAL_ERROR else Except.ok (),
        [EngineEvent.setFinalized true, .engineOneShot data]) := by
  subst h5
  have h4i : op.mdSize < (4294967296 : Int) := by omega
  by_cases hc : o.r ≠ 1 ∨ o.written ≠ op.mdSize.toNat <;>
    simp [HashOperation.digest, HashOperation.digest_len, h1, h2, h3, h4i, hc]

/-- On the accepted finalize path, `digest_final` behaves like `digest_run`. -/
theorem digest_final_run (op : HashOperation) (outLen : Nat) (o : EvpReply)
    (h1 : op.in_use = true) (h2 : op.finalized = false)
    (h3 : 0 ≤ op.mdSize) (h4 : op.mdSize.toNat < 2 ^ 32)
    (h5 : outLen = op.mdSize.toNat) :
    op.digest_final outLen o =
      ({ op with finalized := true },
        if o.r ≠ 1 ∨ o.written ≠ outLen then
          Except.error CKR_GENERAL_ERROR else Except.ok (),
        [EngineEvent.setFinalized true, .engineFinal]) := by
  subst h5
  have h4i : op.mdSize < (4294967296 : Int) := by omega
  by_cases hc : o.r ≠ 1 ∨ o.written ≠ op.mdSize.toNat <;>
    simp [HashOperation.digest_final, HashOperation.digest_len, h1, h2, h3,
      h4i, hc]

/-- `digest` never changes `mech`, `mdSize` or `in_use`. -/
theorem digest_frame (op : HashOperation) (data : List Nat) (outLen : Nat)
    (o : EvpReply) :
    (op.digest data outLen o).1.mech = op.mech ∧
    (op.digest data outLen o).1.mdSize = op.mdSize ∧
    (op.digest data outLen o).1.in_use = op.in_use := by
  unfold HashOperation.digest
  repeat' split
  all_goals simp

/-- `digest_update` never changes `mech` or `mdSize`. -/
theorem digest_update_frame (op : HashOperation) (data : List Nat)
    (u : UpdateOracle) :
    (op.digest_update data u).1.mech = op.mech ∧
    (op.digest_update data u).1.mdSize = op.mdSize := by
  unfold HashOperation.digest_update
  repeat' split
  all_goals simp

/-- `digest_final` never changes `mech`, `mdSize` or `in_use`. -/
theorem digest_final_frame (op : HashOperation) (outLen : Nat)
    (o : EvpReply) :
    (op.digest_final outLen o).1.mech = op.mech ∧
    (op.digest_final outLen o).1.mdSize = op.mdSize ∧
    (op.digest_final outLen o).1.in_use = op.in_use := by
  unfold HashOperation.digest_final
  repeat' split
  all_goals simp

/-- Whenever `digest` dispatches the engine one-shot call, its trace is
exactly the `finalized` write followed by the dispatch, and the returned
operation is finalized. -/
theorem digest_dispatch_shape (op : HashOperation) (data : List Nat)
    (outLen : Nat) (o : EvpReply)
    (h : EngineEvent.engineOneShot data ∈ (op.digest data outLen o).2.2) :
    (op.digest data outLen o).2.2 =
      [EngineEvent.setFinalized true, .engineOneShot data] ∧
    (op.digest data outLen o).1.finalized = true := by
  unfold HashOperation.digest at h ⊢
  repeat' split at h
  all_goals simp_all

/-- Whenever `digest_final` dispatches the engine finalize call, its trace
is exactly the `finalized` write followed by the dispatch, and the
returned operation is finalized. -/
theorem digest_final_dispatch_shape (op : HashOperation) (outLen : Nat)
    (o : EvpReply)
    (h : EngineEvent.engineFinal ∈ (op.digest_final outLen o).2.2) :
    (op.digest_final outLen o).2.2 =
      [EngineEvent.setFinalized true, .engineFinal] ∧
    (op.digest_final outLen o).1.finalized = true := by
  unfold HashOperation.digest_final at h ⊢
  repeat' split at h
  all_goals simp_all

/-! ## Claim theorems -/

/-- C1: from the Idle state (`in_use = false`, `finalized = false`), with
an output buffer whose length equals `digest_len()`, `digest` dispatches
the engine one-shot call and, on success, leaves `finalized = true` with
`in_use` still false; the one-shot path never writes `in_use`. -/
theorem c1_one_shot_digest (op : HashOperation) (data : List Nat)
    (outLen : Nat) (o : EvpReply)
    (h1 : op.in_use = false) (h2 : op.finalized = false)
    (h3 : 0 ≤ op.mdSize) (h4 : op.mdSize.toNat < 2 ^ 32)
    (h5 : outLen = op.mdSize.toNat) :
    EngineEvent.engineOneShot data ∈ (op.digest data outLen o).2.2 ∧
    EngineEvent.setInUse true ∉ (op.digest data outLen o).2.2 ∧
    (op.digest data outLen o).1.in_use = false ∧
    ((op.digest data outLen o).2.1 = .ok () →
      (op.digest data outLen o).1.finalized = true ∧
      (op.digest data outLen o).1.in_use = false) := by
  rw [digest_run op data outLen o h1 h2 h3 h4 h5]
  exact ⟨by simp, by simp, by simp [h1], fun _ => ⟨rfl, by simp [h1]⟩⟩

/-- C2: a finalized operation rejects `digest`, `digest_update` and
`digest_final` with CKR_OPERATION_NOT_INITIALIZED and unchanged state;
`digest` with `in_use = true` and `digest_final` with `in_use = false`
are rejected the same way. -/
theorem c2_rejections (op1 op2 op3 : HashOperation) (data : List Nat)
    (outLen : Nat) (o : EvpReply) (u : UpdateOracle)
    (h1 : op1.finalized = true) (h2 : op2.in_use = true)
    (h3 : op3.in_use = false) :
    op1.digest data outLen o =
      (op1, .error CKR_OPERATION_NOT_INITIALIZED, []) ∧
    op1.digest_update data u =
      (op1, .error CKR_OPERATION_NOT_INITIALIZED, []) ∧
    op1.digest_final outLen o =
      (op1, .error CKR_OPERATION_NOT_INITIALIZED, []) ∧
    op2.digest data outLen o =
      (op2, .error CKR_OPERATION_NOT_INITIALIZED, []) ∧
    op3.digest_final outLen o =
      (op3, .error CKR_OPERATION_NOT_INITIALIZED, []) := by
  refine ⟨?_, ?_, ?_, ?_, ?_⟩
  · simp [HashOperation.digest, h1]
  · simp [HashOperation.digest_update, h1]
  · by_cases hu : op1.in_use <;> simp [HashOperation.digest_final, h1, hu]
  · simp [HashOperation.digest, h2]
  · simp [HashOperation.digest_final, h3]

/-- C3: the first successful `digest_update` from Idle runs the engine
`init`, then sets `in_use = true`, then runs the engine `update`, in that
order; a subsequent `digest_update` (with `in_use = true`) runs the
engine `update` without running `init` again. -/
theorem c3_lazy_init (op op2 : HashOperation) (data data2 : List Nat)
    (u u2 : UpdateOracle)
    (h1 : op.finalized = false) (h2 : op.in_use = false)
    (hi : u.initR = 1) (hu : u.updR = 1)
    (h3 : op2.finalized = false) (h4 : op2.in_use = true) :
    op.digest_update data u =
      ({ op with in_use := true }, .ok (),
        [EngineEvent.engineInit, .setInUse true, .engineUpdate data]) ∧
    EngineEvent.engineInit ∉ (op2.digest_update data2 u2).2.2 ∧
    EngineEvent.engineUpdate data2 ∈ (op2.digest_update data2 u2).2.2 := by
  refine ⟨by simp [HashOperation.digest_update, h1, h2, hi, hu], ?_, ?_⟩
  · by_cases hu2 : u2.updR = 1 <;>
      simp [HashOperation.digest_update, h3, h4, hu2]
  · by_cases hu2 : u2.updR = 1 <;>
      simp [HashOperation.digest_update, h3, h4, hu2]

/-- C4: `digest` and `digest_final` reject a wrong-length output buffer
with CKR_GENERAL_ERROR before any engine dispatch and without setting
`finalized`; and even when the engine call returns 1, a reported written
byte count different from the buffer length yields CKR_GENERAL_ERROR. -/
theorem c4_length_checks (op1 op2 op3 op4 : HashOperation) (data : List Nat)
    (l1 l2 l3 l4 : Nat) (o1 o2 o3 o4 : EvpReply)
    (ha1 : op1.in_use = false) (ha2 : op1.finalized = false)
    (ha3 : 0 ≤ op1.mdSize) (ha4 : l1 ≠ op1.mdSize.toNat)
    (hb1 : op2.in_use = true) (hb2 : op2.finalized = false)
    (hb3 : 0 ≤ op2.mdSize) (hb4 : l2 ≠ op2.mdSize.toNat)
    (hc1 : op3.in_use = false) (hc2 : op3.finalized = false)
    (hc3 : 0 ≤ op3.mdSize) (hc4 : op3.mdSize.toNat < 2 ^ 32)
    (hc5 : l3 = op3.mdSize.toNat) (hc6 : o3.r = 1) (hc7 : o3.written ≠ l3)
    (hd1 : op4.in_use = true) (hd2 : op4.finalized = false)
    (hd3 : 0 ≤ op4.mdSize) (hd4 : op4.mdSize.toNat < 2 ^ 32)
    (hd5 : l4 = op4.mdSize.toNat) (hd6 : o4.r = 1) (hd7 : o4.written ≠ l4) :
    op1.digest data l1 o1 = (op1, .error CKR_GENERAL_ERROR, []) ∧
    op2.digest_final l2 o2 = (op2, .error CKR_GENERAL_ERROR, []) ∧
    (op3.digest data l3 o3).2.1 = .error CKR_GENERAL_ERROR ∧
    (op4.digest_final l4 o4).2.1 = .error CKR_GENERAL_ERROR := by
  refine ⟨?_, ?_, ?_, ?_⟩
  · simp [HashOperation.digest, HashOperation.digest_len, ha1, ha2, ha3, ha4]
  · simp [HashOperation.digest_final, HashOperation.digest_len, hb1, hb2,
      hb3, hb4]
  · rw [digest_run op3 data l3 o3 hc1 hc2 hc3 hc4 hc5]
    simp [hc7]
  · rw [digest_final_run op4 l4 o4 hd1 hd2 hd3 hd4 hd5]
    simp [hd7]

/-- C5: when the engine `update` reports failure inside `digest_update`
(whether on the first call, after a successful `init`, or on a later
call), the operation forces `finalized = true` and returns
CKR_DEVICE_ERROR. -/
theorem c5_update_failure_fail_closed (op1 op2 : HashOperation)
    (data : List Nat) (u1 u2 : UpdateOracle)
    (h1 : op1.finalized = false) (h2 : op1.in_use = false)
    (h3 : u1.initR = 1) (h4 : u1.updR ≠ 1)
    (h5 : op2.finalized = false) (h6 : op2.in_use = true)
    (h7 : u2.updR ≠ 1) :
    (op1.digest_update data u1).1.finalized = true ∧
    (op1.digest_update data u1).2.1 = .error CKR_DEVICE_ERROR ∧
    (op2.digest_update data u2).1.finalized = true ∧
    (op2.digest_update data u2).2.1 = .error CKR_DEVICE_ERROR := by
  refine ⟨?_, ?_, ?_, ?_⟩ <;>
    simp [HashOperation.digest_update, h1, h2, h3, h4, h5, h6, h7]

/-- C6: in both `digest` and `digest_final`, whenever the engine
one-shot / finalize call is dispatched, the write `finalized = true` has
already happened (it immediately precedes the dispatch in the trace), so
after the length check passes there is no execution in which the engine
call fails while the operation stays retryable. -/
theorem c6_finalized_before_dispatch (op1 op2 : HashOperation)
    (data : List Nat) (l1 l2 : Nat) (o1 o2 : EvpReply)
    (h1 : EngineEvent.engineOneShot data ∈ (op1.digest data l1 o1).2.2)
    (h2 : EngineEvent.engineFinal ∈ (op2.digest_final l2 o2).2.2) :
    (op1.digest data l1 o1).2.2 =
      [EngineEvent.setFinalized true, .engineOneShot data] ∧
    (op1.digest data l1 o1).1.finalized = true ∧
    (op2.digest_final l2 o2).2.2 =
      [EngineEvent.setFinalized true, .engineFinal] ∧
    (op2.digest_final l2 o2).1.finalized = true := by
  obtain ⟨a1, a2⟩ := digest_dispatch_shape op1 data l1 o1 h1
  obtain ⟨b1, b2⟩ := digest_final_dispatch_shape op2 l2 o2 h2
  exact ⟨a1, a2, b1, b2⟩

/-- C7 counterexample: a concrete Idle operation (CKM_SHA256, size 32)
whose first `digest_update` sees `EVP_DigestInit` return 0: the call
returns CKR_DEVICE_ERROR but `finalized` is NOT forced to true — the
init failure propagates via `?` before any flag is written, refuting the
claim that init failures force terminal state. -/
theorem c7_counterexample :
    (HashOperation.digest_update ⟨0x250, 32, false, false⟩ []
        ⟨0, 0⟩).2.1 = Except.error CKR_DEVICE_ERROR ∧
    ¬ ((HashOperation.digest_update ⟨0x250, 32, false, false⟩ []
        ⟨0, 0⟩).1.finalized = true) := by
  exact ⟨rfl, by decide⟩

/-- C7 (amended): if the engine `init` fails during the first
`digest_update`, the call returns CKR_DEVICE_ERROR and leaves both flags
unchanged (`finalized = false`, `in_use = false`): init failures are
fail-open (the operation stays retryable), only `update` failures are
fail-closed. -/
theorem c7_init_failure_fail_open (op : HashOperation) (data : List Nat)
    (u : UpdateOracle)
    (h1 : op.finalized = false) (h2 : op.in_use = false)
    (h3 : u.initR ≠ 1) :
    op.digest_update data u =
      (op, .error CKR_DEVICE_ERROR, [EngineEvent.engineInit]) := by
  simp [HashOperation.digest_update, h1, h2, h3]

/-- C8: `reset` always succeeds, clears both flags (Idle state), keeps
the mechanism and the engine resources (`mdSize`) untouched, and is
idempotent. -/
theorem c8_reset (op : HashOperation) :
    (op.reset).2.1 = .ok () ∧
    (op.reset).1.finalized = false ∧
    (op.reset).1.in_use = false ∧
    (op.reset).1.mech = op.mech ∧
    (op.reset).1.mdSize = op.mdSize ∧
    ((op.reset).1).reset.1 = (op.reset).1 ∧
    ((op.reset).1).reset.2.1 = .ok () := by
  simp [HashOperation.reset]

/-- C9: `mechanism()` always returns the identifier stored at
construction and `digest_len()` always returns the algorithm's fixed
size, independently of the two lifecycle flags; none of `digest`,
`digest_update`, `digest_final`, `reset` changes the mechanism or the
algorithm handle (`mdSize`), so both queries return the same values
before, during and after any operation sequence. -/
theorem c9_stable_queries (op : HashOperation) (b c : Bool)
    (data : List Nat) (l : Nat) (o f : EvpReply) (u : UpdateOracle)
    (h : 0 ≤ op.mdSize) :
    op.mechanism = .ok op.mech ∧
    op.digest_len = .ok op.mdSize.toNat ∧
    ({ op with finalized := b, in_use := c } : HashOperation).digest_len =
      op.digest_len ∧
    (op.digest data l o).1.mech = op.mech ∧
    (op.digest data l o).1.mdSize = op.mdSize ∧
    (op.digest_update data u).1.mech = op.mech ∧
    (op.digest_update data u).1.mdSize = op.mdSize ∧
    (op.digest_final l f).1.mech = op.mech ∧
    (op.digest_final l f).1.mdSize = op.mdSize ∧
    (op.reset).1.mech = op.mech ∧
    (op.reset).1.mdSize = op.mdSize := by
  obtain ⟨a1, a2, -⟩ := digest_frame op data l o
  obtain ⟨b1, b2⟩ := digest_update_frame op data u
  obtain ⟨d1, d2, -⟩ := digest_final_frame op l f
  exact ⟨rfl, by simp [HashOperation.digest_len, h],
    by simp [HashOperation.digest_len], a1, a2, b1, b2, d1, d2,
    by simp [HashOperation.reset], by simp [HashOperation.reset]⟩

/-- C10: a successful `digest_update` with an empty chunk from Idle still
runs the engine `init` and sets `in_use = true`, committing the
operation to the streaming path: a subsequent one-shot `digest` is
rejected with CKR_OPERATION_NOT_INITIALIZED and unchanged state even
though no input bytes were hashed. -/
theorem c10_empty_update_commits (op : HashOperation) (u : UpdateOracle)
    (o : EvpReply) (data : List Nat) (l : Nat)
    (h1 : op.finalized = false) (h2 : op.in_use = false)
    (h3 : u.initR = 1) (h4 : u.updR = 1) :
    (op.digest_update [] u).1.in_use = true ∧
    (op.digest_update [] u).2.1 = .ok () ∧
    EngineEvent.engineInit ∈ (op.digest_update [] u).2.2 ∧
    ((op.digest_update [] u).1).digest data l o =
      ((op.digest_update [] u).1,
        .error CKR_OPERATION_NOT_INITIALIZED, []) := by
  have he : op.digest_update [] u =
      ({ op with in_use := true }, .ok (),
        [EngineEvent.engineInit, .setInUse true, .engineUpdate []]) := by
    simp [HashOperation.digest_update, h1, h2, h3, h4]
  rw [he]
  exact ⟨rfl, rfl, by simp, by simp [HashOperation.digest]⟩

/-! ## Witnesses -/

/-- Witness for C1 at a concrete SHA-256 Idle operation and input "abc". -/
theorem c1_one_shot_digest_witness :
    (opIdle.in_use = false ∧ opIdle.finalized = false ∧
     0 ≤ opIdle.mdSize ∧ opIdle.mdSize.toNat < 2 ^ 32 ∧
     32 = opIdle.mdSize.toNat) ∧
    (EngineEvent.engineOneShot [97, 98, 99] ∈
       (opIdle.digest [97, 98, 99] 32 ⟨1, 32⟩).2.2 ∧
     EngineEvent.setInUse true ∉
       (opIdle.digest [97, 98, 99] 32 ⟨1, 32⟩).2.2 ∧
     (opIdle.digest [97, 98, 99] 32 ⟨1, 32⟩).1.in_use = false ∧
     ((opIdle.digest [97, 98, 99] 32 ⟨1, 32⟩).2.1 = .ok () →
       (opIdle.digest [97, 98, 99] 32 ⟨1, 32⟩).1.finalized = true ∧
       (opIdle.digest [97, 98, 99] 32 ⟨1, 32⟩).1.in_use = false)) :=
  ⟨⟨rfl, rfl, by decide, by decide, by decide⟩,
   c1_one_shot_digest opIdle [97, 98, 99] 32 ⟨1, 32⟩ rfl rfl (by decide)
     (by decide) (by decide)⟩

/-- Witness for C2 at concrete finalized, in-use and Idle operations. -/
theorem c2_rejections_witness :
    (opFin.finalized = true ∧ opBusy.in_use = true ∧
     opIdle.in_use = false) ∧
    (opFin.digest [] 32 ⟨1, 32⟩ =
       (opFin, .error CKR_OPERATION_NOT_INITIALIZED, []) ∧
     opFin.digest_update [] ⟨1, 1⟩ =
       (opFin, .error CKR_OPERATION_NOT_INITIALIZED, []) ∧
     opFin.digest_final 32 ⟨1, 32⟩ =
       (opFin, .error CKR_OPERATION_NOT_INITIALIZED, []) ∧
     opBusy.digest [] 32 ⟨1, 32⟩ =
       (opBusy, .error CKR_OPERATION_NOT_INITIALIZED, []) ∧
     opIdle.digest_final 32 ⟨1, 32⟩ =
       (opIdle, .error CKR_OPERATION_NOT_INITIALIZED, [])) :=
  ⟨⟨rfl, rfl, rfl⟩,
   c2_rejections opFin opBusy opIdle [] 32 ⟨1, 32⟩ ⟨1, 1⟩ rfl rfl rfl⟩

/-- Witness for C3 at a concrete Idle and a concrete streaming operation. -/
theorem c3_lazy_init_witness :
    (opIdle.finalized = false ∧ opIdle.in_use = false ∧
     (1 : Int) = 1 ∧ (1 : Int) = 1 ∧
     opBusy.finalized = false ∧ opBusy.in_use = true) ∧
    (opIdle.digest_update [1] (⟨1, 1⟩ : UpdateOracle) =
       ({ opIdle with in_use := true }, .ok (),
         [EngineEvent.engineInit, .setInUse true, .engineUpdate [1]]) ∧
     EngineEvent.engineInit ∉
       (opBusy.digest_update [2] (⟨1, 1⟩ : UpdateOracle)).2.2 ∧
     EngineEvent.engineUpdate [2] ∈
       (opBusy.digest_update [2] (⟨1, 1⟩ : UpdateOracle)).2.2) :=
  ⟨⟨rfl, rfl, rfl, rfl, rfl, rfl⟩,
   c3_lazy_init opIdle opBusy [1] [2] ⟨1, 1⟩ ⟨1, 1⟩ rfl rfl rfl rfl rfl rfl⟩

/-- Witness for C4: wrong-length buffers (31 vs 32) and an engine reply
that returns 1 but reports 31 bytes written into a 32-byte buffer. -/
theorem c4_length_checks_witness :
    (opIdle.in_use = false ∧ opIdle.finalized = false ∧
     0 ≤ opIdle.mdSize ∧ (31 : Nat) ≠ opIdle.mdSize.toNat ∧
     opBusy.in_use = true ∧ opBusy.finalized = false ∧
     0 ≤ opBusy.mdSize ∧ (31 : Nat) ≠ opBusy.mdSize.toNat ∧
     opIdle.mdSize.toNat < 2 ^ 32 ∧ (32 : Nat) = opIdle.mdSize.toNat ∧
     (⟨1, 31⟩ : EvpReply).r = 1 ∧ (⟨1, 31⟩ : EvpReply).written ≠ 32) ∧
    (opIdle.digest [] 31 ⟨1, 32⟩ =
       (opIdle, .error CKR_GENERAL_ERROR, []) ∧
     opBusy.digest_final 31 ⟨1, 32⟩ =
       (opBusy, .error CKR_GENERAL_ERROR, []) ∧
     (opIdle.digest [] 32 ⟨1, 31⟩).2.1 = .error CKR_GENERAL_ERROR ∧
     (opBusy.digest_final 32 ⟨1, 31⟩).2.1 = .error CKR_GENERAL_ERROR) :=
  ⟨⟨rfl, rfl, by decide, by decide, rfl, rfl, by decide, by decide,
    by decide, by decide, rfl, by decide⟩,
   c4_length_checks opIdle opBusy opIdle opBusy [] 31 31 32 32
     ⟨1, 32⟩ ⟨1, 32⟩ ⟨1, 31⟩ ⟨1, 31⟩ rfl rfl (by decide) (by decide)
     rfl rfl (by decide) (by decide) rfl rfl (by decide) (by decide)
     (by decide) rfl (by decide) rfl rfl (by decide) (by decide)
     (by decide) rfl (by decide)⟩

/-- Witness for C5: update failure (return 0) on the first call after a
successful init, and on a later streaming call. -/
theorem c5_update_failure_witness :
    (opIdle.finalized = false ∧ opIdle.in_use = false ∧
     (⟨1, 0⟩ : UpdateOracle).initR = 1 ∧
     (⟨1, 0⟩ : UpdateOracle).updR ≠ 1 ∧
     opBusy.finalized = false ∧ opBusy.in_use = true ∧
     (⟨0, 0⟩ : UpdateOracle).updR ≠ 1) ∧
    ((opIdle.digest_update [7] ⟨1, 0⟩).1.finalized = true ∧
     (opIdle.digest_update [7] ⟨1, 0⟩).2.1 = .error CKR_DEVICE_ERROR ∧
     (opBusy.digest_update [7] ⟨0, 0⟩).1.finalized = true ∧
     (opBusy.digest_update [7] ⟨0, 0⟩).2.1 = .error CKR_DEVICE_ERROR) :=
  ⟨⟨rfl, rfl, rfl, by decide, rfl, rfl, by decide⟩,
   c5_update_failure_fail_closed opIdle opBusy [7] ⟨1, 0⟩ ⟨0, 0⟩
     rfl rfl rfl (by decide) rfl rfl (by decide)⟩

/-- Witness for C6 at concrete dispatching executions of `digest` (from
Idle) and `digest_final` (from Streaming). -/
theorem c6_finalized_before_dispatch_witness :
    (EngineEvent.engineOneShot [5] ∈ (opIdle.digest [5] 32 ⟨1, 32⟩).2.2 ∧
     EngineEvent.engineFinal ∈ (opBusy.digest_final 32 ⟨1, 32⟩).2.2) ∧
    ((opIdle.digest [5] 32 ⟨1, 32⟩).2.2 =
       [EngineEvent.setFinalized true, .engineOneShot [5]] ∧
     (opIdle.digest [5] 32 ⟨1, 32⟩).1.finalized = true ∧
     (opBusy.digest_final 32 ⟨1, 32⟩).2.2 =
       [EngineEvent.setFinalized true, .engineFinal] ∧
     (opBusy.digest_final 32 ⟨1, 32⟩).1.finalized = true) :=
  ⟨⟨by decide, by decide⟩,
   c6_finalized_before_dispatch opIdle opBusy [5] 32 32 ⟨1, 32⟩ ⟨1, 32⟩
     (by decide) (by decide)⟩

/-- Witness for the amended C7 at a concrete Idle operation whose engine
`init` returns 0. -/
theorem c7_init_failure_fail_open_witness :
    (opIdle.finalized = false ∧ opIdle.in_use = false ∧
     (⟨0, 1⟩ : UpdateOracle).initR ≠ 1) ∧
    opIdle.digest_update [] ⟨0, 1⟩ =
      (opIdle, .error CKR_DEVICE_ERROR, [EngineEvent.engineInit]) :=
  ⟨⟨rfl, rfl, by decide⟩,
   c7_init_failure_fail_open opIdle [] ⟨0, 1⟩ rfl rfl (by decide)⟩

/-- Witness for C9 at a concrete SHA-256 operation and concrete calls. -/
theorem c9_stable_queries_witness :
    (0 ≤ opIdle.mdSize) ∧
    (opIdle.mechanism = .ok opIdle.mech ∧
     opIdle.digest_len = .ok opIdle.mdSize.toNat ∧
     ({ opIdle with finalized := true, in_use := true } :
         HashOperation).digest_len = opIdle.digest_len ∧
     (opIdle.digest [] 32 ⟨1, 32⟩).1.mech = opIdle.mech ∧
     (opIdle.digest [] 32 ⟨1, 32⟩).1.mdSize = opIdle.mdSize ∧
     (opIdle.digest_update [] ⟨1, 1⟩).1.mech = opIdle.mech ∧
     (opIdle.digest_update [] ⟨1, 1⟩).1.mdSize = opIdle.mdSize ∧
     (opIdle.digest_final 32 ⟨1, 32⟩).1.mech = opIdle.mech ∧
     (opIdle.digest_final 32 ⟨1, 32⟩).1.mdSize = opIdle.mdSize ∧
     (opIdle.reset).1.mech = opIdle.mech ∧
     (opIdle.reset).1.mdSize = opIdle.mdSize) :=
  ⟨by decide,
   c9_stable_queries opIdle true true [] 32 ⟨1, 32⟩ ⟨1, 32⟩ ⟨1, 1⟩
     (by decide)⟩

/-- Witness for C10: an empty-chunk first update at a concrete Idle
operation, followed by a one-shot attempt. -/
theorem c10_empty_update_commits_witness :
    (opIdle.finalized = false ∧ opIdle.in_use = false ∧
     (⟨1, 1⟩ : UpdateOracle).initR = 1 ∧
     (⟨1, 1⟩ : UpdateOracle).updR = 1) ∧
    ((opIdle.digest_update [] ⟨1, 1⟩).1.in_use = true ∧
     (opIdle.digest_update [] ⟨1, 1⟩).2.1 = .ok () ∧
     EngineEvent.engineInit ∈ (opIdle.digest_update [] ⟨1, 1⟩).2.2 ∧
     ((opIdle.digest_update [] ⟨1, 1⟩).1).digest [3] 32 ⟨1, 32⟩ =
       ((opIdle.digest_update [] ⟨1, 1⟩).1,
         .error CKR_OPERATION_NOT_INITIALIZED, [])) :=
  ⟨⟨rfl, rfl, rfl, rfl⟩,
   c10_empty_update_commits opIdle ⟨1, 1⟩ ⟨1, 32⟩ [3] 32 rfl rfl rfl rfl⟩
